import Mathlib

/-!
# Verification of the lite-room background preview rendering pipeline

This file is a shallow embedding, in Lean 4, of the core of
`crates/adapters/src/preview/mod.rs` together with the domain types it uses
(`crates/domain/src/preview.rs`, `crates/domain/src/edit.rs`,
`crates/application/src/error.rs`), and proofs of the behavioural properties
stated in the project's specification.

Modelling conventions:

* Rust machine integers (`u8`, `u32`, `u64`, `usize`) are modelled as `ℕ`;
  where wrap-around or an overflow check matters it is made explicit
  (`render_target` models `usize::checked_mul` with an explicit `2 ^ 64`
  bound).
* `f32`/`f64` arithmetic is modelled as exact rational arithmetic over `ℚ`.
  All concrete computations relied on below sit far from rounding-decision
  boundaries, so the idealised semantics agrees with the float semantics at
  the 8-bit granularities being compared.  The float literals `0.12`,
  `0.035`, `0.08`, `0.95` become `3/25`, `7/200`, `2/25`, `19/20`.
  `2f32.powf e` (and the WGSL `exp2`) is only ever needed at integer
  exposure stops, where it is exact, so exposure is carried as `ℤ`.
  Rust `f32::round` rounds half away from zero; every value rounded below is
  non-negative, where this agrees with Lean's `round` (half up).
  The WGSL `u32(x)` conversion truncates toward zero; the converted values
  are non-negative, so it is modelled by `Int.floor`.
* Channels (`mpsc`) are modelled as FIFO lists; the stateful
  facade/worker pair is modelled both as sequential functions over an
  explicit state (for the single-call contracts) and as a small-step
  interleaving machine `Step` (for the concurrency claims).
* Fallible Rust functions returning `Result` become `Except`.
-/

namespace LiteRoom

/-- `crates/application/src/error.rs`: the `ApplicationError` variants used by
the preview module (message payloads kept as strings). -/
inductive ApplicationError where
  | invalidInput (msg : String)
  | notFound (msg : String)
  | io (msg : String)
  | persistence (msg : String)
  | decode (msg : String)
deriving Repr, DecidableEq

/-- `crates/domain/src/edit.rs`: the six tone parameters.  `exposure` is
restricted to integer stops so that `2f32.powf exposure` stays rational; the
other five parameters are arbitrary rationals. -/
structure EditParams where
  exposure : ℤ
  contrast : ℚ
  temperature : ℚ
  tint : ℚ
  highlights : ℚ
  shadows : ℚ
deriving Repr, DecidableEq

/-- `crates/domain/src/preview.rs`: a preview render request. -/
structure PreviewRequest where
  image_id : ℕ
  source_path : String
  params : EditParams
  target_width : ℕ
  target_height : ℕ
deriving Repr, DecidableEq

/-- `preview/mod.rs` lines 128-132: a request tagged with its sequence
number. -/
structure ScheduledJob where
  sequence : ℕ
  request : PreviewRequest
deriving Repr, DecidableEq

/-- `preview/mod.rs` lines 138-142: renderer output. -/
structure RenderedPreview where
  width : ℕ
  height : ℕ
  pixels : List ℕ
deriving Repr, DecidableEq

/-- `crates/domain/src/preview.rs`: a delivered frame. -/
structure PreviewFrame where
  image_id : ℕ
  sequence : ℕ
  width : ℕ
  height : ℕ
  render_time_ms : ℕ
  pixels : List ℕ
deriving Repr, DecidableEq

/-- `crates/domain/src/preview.rs`: the metrics snapshot. -/
structure PreviewMetrics where
  submitted_jobs : ℕ
  completed_jobs : ℕ
  canceled_jobs : ℕ
  dropped_frames : ℕ
  last_render_time_ms : Option ℕ
  p95_render_time_ms : Option ℕ
deriving Repr, DecidableEq

/-- `preview/mod.rs` lines 86-94: the mutable metrics state. -/
structure MetricsState where
  submitted_jobs : ℕ
  completed_jobs : ℕ
  canceled_jobs : ℕ
  dropped_frames : ℕ
  last_render_time_ms : Option ℕ
  render_samples_ms : List ℕ
deriving Repr, DecidableEq

/-- `MetricsState::default()`. -/
def MetricsState.initial : MetricsState :=
  { submitted_jobs := 0, completed_jobs := 0, canceled_jobs := 0
    dropped_frames := 0, last_render_time_ms := none, render_samples_ms := [] }

/-- `preview/mod.rs` line 11. -/
def METRIC_WINDOW_SIZE : ℕ := 64

/-- `preview/mod.rs` line 12. -/
def MAX_RENDER_PIXELS : ℕ := 2000000

/-- `preview/mod.rs` lines 118-126: sort a copy of the sample window and pick
the nearest-rank index `round ((n - 1) * 0.95)`; `None` on an empty window.
The `f64` literal `0.95` is modelled by `19/20`; for window sizes up to the
cap of 64 the two agree after rounding. -/
def percentile_95 (samples : List ℕ) : Option ℕ :=
  if samples.isEmpty then none
  else
    let sorted := samples.mergeSort (fun a b => decide (a ≤ b))
    let index := (round (((sorted.length - 1 : ℕ) : ℚ) * (19 / 20))).toNat
    sorted[index]?

/-- `preview/mod.rs` lines 96-106: snapshot of the metrics state. -/
def MetricsState.snapshot (m : MetricsState) : PreviewMetrics :=
  { submitted_jobs := m.submitted_jobs
    completed_jobs := m.completed_jobs
    canceled_jobs := m.canceled_jobs
    dropped_frames := m.dropped_frames
    last_render_time_ms := m.last_render_time_ms
    p95_render_time_ms := percentile_95 m.render_samples_ms }

/-- `preview/mod.rs` lines 108-115: append a render latency sample and drain
the window down to `METRIC_WINDOW_SIZE` entries, oldest first. -/
def MetricsState.push_render_sample (m : MetricsState) (sample_ms : ℕ) : MetricsState :=
  let samples := m.render_samples_ms ++ [sample_ms]
  let samples :=
    if samples.length > METRIC_WINDOW_SIZE then
      samples.drop (samples.length - METRIC_WINDOW_SIZE)
    else samples
  { m with last_render_time_ms := some sample_ms, render_samples_ms := samples }

/-- The `usize` range bound used to model `checked_mul`. -/
def USIZE_BOUND : ℕ := 2 ^ 64

/-- `preview/mod.rs` lines 653-668 (`render_target`): cap the requested
resolution to the pixel budget.  The `f64` expression
`floor (w * sqrt (MAX / p))` is modelled exactly over the reals; since
`⌊w * Real.sqrt (MAX / p)⌋ = Nat.sqrt (MAX * w ^ 2 / p)` (with `ℕ`-division),
the definition below is the exact-real semantics of the source. -/
def render_target (width height : ℕ) : Except ApplicationError (ℕ × ℕ × ℕ) :=
  if width * height ≥ USIZE_BOUND then
    .error (.invalidInput "preview dimensions overflow")
  else
    let requested_pixels := width * height
    if requested_pixels ≤ MAX_RENDER_PIXELS then
      .ok (width, height, requested_pixels)
    else
      let render_width :=
        max (Nat.sqrt (MAX_RENDER_PIXELS * width * width / requested_pixels)) 1
      let render_height :=
        max (Nat.sqrt (MAX_RENDER_PIXELS * height * height / requested_pixels)) 1
      if render_width * render_height ≥ USIZE_BOUND then
        .error (.invalidInput "preview dimensions overflow")
      else
        .ok (render_width, render_height,
             min (render_width * render_height) MAX_RENDER_PIXELS)

/-! ## Tone transform (CPU path, lines 582-695, and GPU shader, lines 35-83) -/

/-- Rust `x.clamp(lo, hi)` and WGSL `clamp(x, lo, hi)`. -/
def fclamp (x lo hi : ℚ) : ℚ := min (max x lo) hi

/-- `preview/mod.rs` lines 670-676 (`unpack_rgb`): `(p >> 16) & 0xFF`,
`(p >> 8) & 0xFF`, `p & 0xFF`, written with division and remainder. -/
def unpack_rgb (pixel : ℕ) : ℕ × ℕ × ℕ :=
  (pixel / 65536 % 256, pixel / 256 % 256, pixel % 256)

/-- `preview/mod.rs` lines 678-680 (`pack_rgb`): the arguments are `u8`
channel values (< 256), so the bit-or of the shifted channels is plain
arithmetic. -/
def pack_rgb (red green blue : ℕ) : ℕ :=
  red * 65536 + green * 256 + blue

/-- `preview/mod.rs` lines 682-687 (`apply_exposure_and_contrast_channel`). -/
def apply_exposure_and_contrast_channel
    (channel : ℕ) (exposure_gain contrast_factor : ℚ) : ℕ :=
  let normalized : ℚ := channel / 255
  let exposed := normalized * exposure_gain
  let contrasted := fclamp ((exposed - 1/2) * contrast_factor + 1/2) 0 1
  (round (contrasted * 255)).toNat

/-- `preview/mod.rs` lines 689-695 (`apply_highlights_shadows_channel`). -/
def apply_highlights_shadows_channel
    (channel : ℕ) (highlights_strength shadows_strength : ℚ) : ℕ :=
  let value : ℚ := channel / 255
  let highlight_component := max (value - 1/2) 0 * highlights_strength
  let shadow_component := max (1/2 - value) 0 * shadows_strength
  let adjusted := fclamp (value + shadow_component - highlight_component) 0 1
  (round (adjusted * 255)).toNat

/-- Loop body of `apply_temperature_tint` (`preview/mod.rs` lines 599-608),
with the derived shifts already computed. -/
def apply_temperature_tint_pixel (pixel : ℕ) (temp tint_shift : ℚ) : ℕ :=
  let c := unpack_rgb pixel
  let red := fclamp ((c.1 : ℚ) / 255 + temp) 0 1
  let blue := fclamp ((c.2.2 : ℚ) / 255 - temp) 0 1
  let green := fclamp ((c.2.1 : ℚ) / 255 + tint_shift) 0 1
  pack_rgb (round (red * 255)).toNat (round (green * 255)).toNat (round (blue * 255)).toNat

/-- Loop body of `apply_exposure_contrast` (`preview/mod.rs` lines 586-592),
with the derived gain and factor already computed. -/
def apply_exposure_contrast_pixel (pixel : ℕ) (exposure_gain contrast_factor : ℚ) : ℕ :=
  let c := unpack_rgb pixel
  pack_rgb
    (apply_exposure_and_contrast_channel c.1 exposure_gain contrast_factor)
    (apply_exposure_and_contrast_channel c.2.1 exposure_gain contrast_factor)
    (apply_exposure_and_contrast_channel c.2.2 exposure_gain contrast_factor)

/-- Loop body of `apply_highlights_shadows` (`preview/mod.rs` lines 616-623). -/
def apply_highlights_shadows_pixel (pixel : ℕ) (hi_strength sh_strength : ℚ) : ℕ :=
  let c := unpack_rgb pixel
  pack_rgb
    (apply_highlights_shadows_channel c.1 hi_strength sh_strength)
    (apply_highlights_shadows_channel c.2.1 hi_strength sh_strength)
    (apply_highlights_shadows_channel c.2.2 hi_strength sh_strength)

/-- Exposure gain `2f32.powf (exposure.clamp (-5.0, 5.0))`, exact at the
integer stops the model carries. -/
def exposure_gain_of (exposure : ℤ) : ℚ :=
  (2 : ℚ) ^ (min (max exposure (-5)) 5)

/-- `preview/mod.rs` lines 582-593 (`apply_exposure_contrast`). -/
def apply_exposure_contrast (pixels : List ℕ) (exposure : ℤ) (contrast : ℚ) : List ℕ :=
  let exposure_gain := exposure_gain_of exposure
  let contrast_factor := 1 + fclamp contrast (-5) 5 * (3/25)
  pixels.map (fun p => apply_exposure_contrast_pixel p exposure_gain contrast_factor)

/-- `preview/mod.rs` lines 595-610 (`apply_temperature_tint`). -/
def apply_temperature_tint (pixels : List ℕ) (temperature tint : ℚ) : List ℕ :=
  let temp := fclamp temperature (-5) 5 * (7/200)
  let tint_shift := fclamp tint (-5) 5 * (7/200)
  pixels.map (fun p => apply_temperature_tint_pixel p temp tint_shift)

/-- `preview/mod.rs` lines 612-624 (`apply_highlights_shadows`). -/
def apply_highlights_shadows (pixels : List ℕ) (highlights shadows : ℚ) : List ℕ :=
  let highlights_strength := fclamp highlights (-5) 5 * (2/25)
  let shadows_strength := fclamp shadows (-5) 5 * (2/25)
  pixels.map (fun p => apply_highlights_shadows_pixel p highlights_strength shadows_strength)

/-- The complete CPU tone transform on one pixel, in source order
(exposure/contrast, then temperature/tint, then highlights/shadows),
as applied by `CpuStageRenderer::render` (lines 358-360). -/
def cpu_tone_pixel (pixel : ℕ) (p : EditParams) : ℕ :=
  apply_highlights_shadows_pixel
    (apply_temperature_tint_pixel
      (apply_exposure_contrast_pixel pixel
        (exposure_gain_of p.exposure) (1 + fclamp p.contrast (-5) 5 * (3/25)))
      (fclamp p.temperature (-5) 5 * (7/200)) (fclamp p.tint (-5) 5 * (7/200)))
    (fclamp p.highlights (-5) 5 * (2/25)) (fclamp p.shadows (-5) 5 * (2/25))

/-- WGSL `to_u8` (`PREVIEW_SHADER` lines 35-37): `u32 (clamp (v * 255, 0, 255))`;
the `u32` conversion truncates toward zero, i.e. floors the non-negative
clamped value. -/
def shader_to_u8 (value : ℚ) : ℕ :=
  (Int.floor (fclamp (value * 255) 0 255)).toNat

/-- The body of the `PREVIEW_SHADER` compute kernel (`preview/mod.rs`
lines 39-83) for one invocation, translated statement by statement.  The
shader runs all three tone stages on `f32` values and converts to 8 bits
only once, at the end, by truncation. -/
def preview_shader_pixel (source : ℕ) (p : EditParams) : ℕ :=
  let red : ℚ := (source / 65536 % 256 : ℕ) / 255
  let green : ℚ := (source / 256 % 256 : ℕ) / 255
  let blue : ℚ := (source % 256 : ℕ) / 255
  let exposure_gain := exposure_gain_of p.exposure
  let contrast_factor := 1 + fclamp p.contrast (-5) 5 * (3/25)
  let red := fclamp ((red * exposure_gain - 1/2) * contrast_factor + 1/2) 0 1
  let green := fclamp ((green * exposure_gain - 1/2) * contrast_factor + 1/2) 0 1
  let blue := fclamp ((blue * exposure_gain - 1/2) * contrast_factor + 1/2) 0 1
  let temp := fclamp p.temperature (-5) 5 * (7/200)
  let tint := fclamp p.tint (-5) 5 * (7/200)
  let red := fclamp (red + temp) 0 1
  let blue := fclamp (blue - temp) 0 1
  let green := fclamp (green + tint) 0 1
  let highlights := fclamp p.highlights (-5) 5 * (2/25)
  let shadows := fclamp p.shadows (-5) 5 * (2/25)
  let high_component := max (red - 1/2) 0 * highlights
  let shadow_component := max (1/2 - red) 0 * shadows
  let red := fclamp (red + shadow_component - high_component) 0 1
  let high_component_g := max (green - 1/2) 0 * highlights
  let shadow_component_g := max (1/2 - green) 0 * shadows
  let green := fclamp (green + shadow_component_g - high_component_g) 0 1
  let high_component_b := max (blue - 1/2) 0 * highlights
  let shadow_component_b := max (1/2 - blue) 0 * shadows
  let blue := fclamp (blue + shadow_component_b - high_component_b) 0 1
  shader_to_u8 red * 65536 + shader_to_u8 green * 256 + shader_to_u8 blue

/-! ### Design-level tone stages

The pure per-channel stages, on `[0, 1]`-normalised values, shared by both
execution substrates (spec section 4.4).  They are used to relate the CPU
path and the shader path to one common pipeline. -/

/-- Stage 1+2: exposure then contrast, clamped to `[0, 1]`. -/
def tone_stage_ec (v gain factor : ℚ) : ℚ :=
  fclamp ((v * gain - 1/2) * factor + 1/2) 0 1

/-- Stage 3 for one channel: add a white-balance shift, clamped to `[0, 1]`
(red gets `+temp`, blue `-temp`, green `+tint`). -/
def tone_stage_shift (v shift : ℚ) : ℚ :=
  fclamp (v + shift) 0 1

/-- Stage 4: highlights/shadows, clamped to `[0, 1]`. -/
def tone_stage_hs (v hi sh : ℚ) : ℚ :=
  fclamp (v + max (1/2 - v) 0 * sh - max (v - 1/2) 0 * hi) 0 1

/-! ## Renderers (`preview/mod.rs` lines 234-341 and 343-368) -/

/-- The image-decode collaborator (`decode_source_pixels`, lines 539-572):
path and target dimensions to a packed-pixel buffer.  It is a parameter of
the renderer models, which lets a theorem quantify over every possible
decoder to express that a renderer never reaches the decode step. -/
def DecodeFun : Type :=
  String → ℕ → ℕ → Except ApplicationError (List ℕ)

/-- `CpuStageRenderer::render` (`preview/mod.rs` lines 346-368): zero-size
guard, sizing, decode, then the three tone stages in order. -/
def cpu_stage_render (decode : DecodeFun) (request : PreviewRequest) :
    Except ApplicationError RenderedPreview := do
  let width := request.target_width
  let height := request.target_height
  if width = 0 ∨ height = 0 then
    throw (.invalidInput "preview target dimensions must be non-zero")
  else
    let (render_width, render_height, _) ← render_target width height
    let pixels ← decode request.source_path render_width render_height
    let pixels := apply_exposure_contrast pixels request.params.exposure request.params.contrast
    let pixels := apply_temperature_tint pixels request.params.temperature request.params.tint
    let pixels := apply_highlights_shadows pixels request.params.highlights request.params.shadows
    pure { width := render_width, height := render_height, pixels := pixels }

/-- `WgpuRenderer::render` (`preview/mod.rs` lines 235-340): zero-size guard,
sizing, decode, upload, one compute dispatch of `PREVIEW_SHADER` with one
invocation per pixel of the `pixel_count`-sized output buffer, readback. -/
def wgpu_render (decode : DecodeFun) (request : PreviewRequest) :
    Except ApplicationError RenderedPreview := do
  let width := request.target_width
  let height := request.target_height
  if width = 0 ∨ height = 0 then
    throw (.invalidInput "preview target dimensions must be non-zero")
  else
    let (render_width, render_height, pixel_count) ← render_target width height
    let source_pixels ← decode request.source_path render_width render_height
    let pixels := (source_pixels.take pixel_count).map
      (fun p => preview_shader_pixel p request.params)
    pure { width := render_width, height := render_height, pixels := pixels }

/-! ## Facade operations (`preview/mod.rs` lines 419-476)

The `mpsc` channels are modelled as FIFO lists (head = oldest element).
`try_recv` on a list succeeds on the head, and reports `Empty` or
`Disconnected` on the empty list according to whether the sender side is
still alive. -/

/-- The `while let Ok(next) = receiver.try_recv()` drain loop of
`try_receive_preview` (lines 451-456): starting from the first received
frame, keep the newest and count every frame displaced. -/
def drain_newest : PreviewFrame → List PreviewFrame → PreviewFrame × ℕ
  | first, [] => (first, 0)
  | _, next :: rest =>
    let r := drain_newest next rest
    (r.1, r.2 + 1)

/-- `BackgroundPreviewPipeline::try_receive_preview` (lines 435-467) over a
snapshot of the result channel.  Returns the call's result together with the
remaining channel content and the updated metrics.  `sender_alive` tells
whether the worker still holds the sender (its drop is the `Disconnected`
case). -/
def try_receive_preview (result_queue : List PreviewFrame) (sender_alive : Bool)
    (metrics : MetricsState) :
    Except ApplicationError (Option PreviewFrame) × List PreviewFrame × MetricsState :=
  match result_queue with
  | [] =>
    if sender_alive then (.ok none, [], metrics)
    else (.error (.io "preview result channel disconnected"), [], metrics)
  | first :: rest =>
    let r := drain_newest first rest
    let metrics :=
      if r.2 > 0 then { metrics with dropped_frames := metrics.dropped_frames + r.2 }
      else metrics
    (.ok (some r.1), [], metrics)

/-- The facade-visible state mutated by `submit_preview`: the `next_sequence`
and `latest_sequence` atomics, the metrics, and the content of the submit
channel. -/
structure FacadeState where
  next_sequence : ℕ
  latest_sequence : ℕ
  metrics : MetricsState
  submit_queue : List ScheduledJob
deriving Repr, DecidableEq

/-- State of a freshly constructed pipeline (`with_renderer`, lines 388-410):
both atomics at 0, empty channels, zeroed metrics. -/
def FacadeState.initial : FacadeState :=
  { next_sequence := 0, latest_sequence := 0
    metrics := MetricsState.initial, submit_queue := [] }

/-- `BackgroundPreviewPipeline::submit_preview` (lines 420-433), keeping the
source's statement order: fetch-add the sequence counter, store the new
sequence into `latest_sequence`, increment the submitted counter, then send
the job.  `worker_alive` models whether the worker thread still holds the
receiver; when it does not, `send` fails and the function returns the error
after all preceding effects have already happened. -/
def submit_preview (s : FacadeState) (request : PreviewRequest) (worker_alive : Bool) :
    Except ApplicationError Unit × FacadeState :=
  let sequence := s.next_sequence + 1
  let s := { s with next_sequence := sequence }
  let s := { s with latest_sequence := sequence }
  let s := { s with metrics := { s.metrics with submitted_jobs := s.metrics.submitted_jobs + 1 } }
  if worker_alive then
    (.ok (), { s with submit_queue := s.submit_queue ++ [⟨sequence, request⟩] })
  else
    (.error (.io "failed to enqueue preview job: sending on a closed channel"), s)

/-! ## The pipeline as an interleaving machine

For the claims about the interaction of the submitting thread and the
worker thread, the pipeline is modelled as a small-step transition system.
One step is one atomic action of either thread: `submit_preview` becomes its
four atomic effects (the spec's concurrency model has a single submitting
thread, section 5), the worker loop (`spawn_worker`, lines 478-531) becomes
one step per channel operation, staleness check, render completion and
publish.  The renderer's output is left unconstrained in the render step:
the scheduling logic never inspects the pixels, so every behaviour of the
real renderers is included.  `delivered` is history: the frames returned by
successive `try_receive_preview` calls, in order. -/

/-- Program counter of the submitting thread inside `submit_preview`. -/
inductive CallerPhase where
  | ready
  | assigned (sequence : ℕ) (request : PreviewRequest)
  | storedLatest (sequence : ℕ) (request : PreviewRequest)
  | counted (sequence : ℕ) (request : PreviewRequest)
deriving Repr, DecidableEq

/-- Program counter of the worker thread inside its loop
(`spawn_worker`, lines 485-530). -/
inductive WorkerPhase where
  | waiting
  | coalescing (job : ScheduledJob)
  | checking (job : ScheduledJob)
  | rendering (job : ScheduledJob)
  | rendered (job : ScheduledJob) (result : RenderedPreview) (elapsed_ms : ℕ)
deriving Repr, DecidableEq

/-- Global state of the pipeline: the two atomics, both channels, the shared
metrics, both threads' positions, and the delivery history. -/
structure PipelineState where
  next_sequence : ℕ
  latest_sequence : ℕ
  submit_queue : List ScheduledJob
  result_queue : List PreviewFrame
  metrics : MetricsState
  worker : WorkerPhase
  caller : CallerPhase
  delivered : List PreviewFrame
deriving Repr, DecidableEq

/-- `mark_canceled` (`preview/mod.rs` lines 533-537). -/
def mark_canceled (m : MetricsState) (count : ℕ) : MetricsState :=
  { m with canceled_jobs := m.canceled_jobs + count }

/-- The frame published on a surviving render
(`spawn_worker`, lines 513-520). -/
def frame_of (job : ScheduledJob) (r : RenderedPreview) (elapsed : ℕ) : PreviewFrame :=
  { image_id := job.request.image_id, sequence := job.sequence
    width := r.width, height := r.height
    render_time_ms := elapsed, pixels := r.pixels }

/-- Effect of one `try_receive_preview` call on the pipeline state: the
facade function runs on the result channel (the worker holds the sender, so
it is alive), and a returned frame is appended to the delivery history. -/
def poll_step (s : PipelineState) : PipelineState :=
  let r := try_receive_preview s.result_queue true s.metrics
  { s with
    result_queue := r.2.1
    metrics := r.2.2
    delivered := s.delivered ++ (match r.1 with | .ok (some f) => [f] | _ => []) }

/-- One atomic action of the pipeline.  Caller steps can interleave with
worker steps at every point. -/
inductive Step : PipelineState → PipelineState → Prop where
  /-- line 421: `next_sequence.fetch_add(1) + 1`. -/
  | submitAssign (s : PipelineState) (request : PreviewRequest) :
      s.caller = .ready →
      Step s { s with next_sequence := s.next_sequence + 1
                      caller := .assigned (s.next_sequence + 1) request }
  /-- line 422: `latest_sequence.store(sequence)`. -/
  | submitStoreLatest (s : PipelineState) (seq : ℕ) (request : PreviewRequest) :
      s.caller = .assigned seq request →
      Step s { s with latest_sequence := seq, caller := .storedLatest seq request }
  /-- lines 423-429: `metrics.submitted_jobs += 1`. -/
  | submitCount (s : PipelineState) (seq : ℕ) (request : PreviewRequest) :
      s.caller = .storedLatest seq request →
      Step s { s with metrics := { s.metrics with
                        submitted_jobs := s.metrics.submitted_jobs + 1 }
                      caller := .counted seq request }
  /-- lines 430-432: `submit_tx.send (ScheduledJob { sequence, request })`. -/
  | submitSend (s : PipelineState) (seq : ℕ) (request : PreviewRequest) :
      s.caller = .counted seq request →
      Step s { s with submit_queue := s.submit_queue ++ [⟨seq, request⟩]
                      caller := .ready }
  /-- lines 435-467: one full `try_receive_preview` call. -/
  | poll (s : PipelineState) :
      s.caller = .ready →
      Step s (poll_step s)
  /-- line 486: the blocking `submit_rx.recv()` obtains the oldest job. -/
  | workerRecv (s : PipelineState) (job : ScheduledJob) (rest : List ScheduledJob) :
      s.worker = .waiting → s.submit_queue = job :: rest →
      Step s { s with worker := .coalescing job, submit_queue := rest }
  /-- lines 487-490: the drain-coalesce loop displaces the candidate with the
  next queued job and counts the candidate canceled. -/
  | workerCoalesce (s : PipelineState) (job next : ScheduledJob) (rest : List ScheduledJob) :
      s.worker = .coalescing job → s.submit_queue = next :: rest →
      Step s { s with worker := .coalescing next, submit_queue := rest
                      metrics := mark_canceled s.metrics 1 }
  /-- lines 487-490: the drain-coalesce loop sees `Empty` and exits. -/
  | workerCoalesceDone (s : PipelineState) (job : ScheduledJob) :
      s.worker = .coalescing job → s.submit_queue = [] →
      Step s { s with worker := .checking job }
  /-- lines 492-495: pre-render staleness check fails, job canceled. -/
  | workerCheckStale (s : PipelineState) (job : ScheduledJob) :
      s.worker = .checking job → job.sequence < s.latest_sequence →
      Step s { s with worker := .waiting, metrics := mark_canceled s.metrics 1 }
  /-- lines 492-495: pre-render staleness check passes. -/
  | workerCheckFresh (s : PipelineState) (job : ScheduledJob) :
      s.worker = .checking job → ¬ job.sequence < s.latest_sequence →
      Step s { s with worker := .rendering job }
  /-- lines 497-506: `renderer.render` returns `Ok`; the output and the
  elapsed time are unconstrained. -/
  | workerRenderOk (s : PipelineState) (job : ScheduledJob)
      (r : RenderedPreview) (elapsed : ℕ) :
      s.worker = .rendering job →
      Step s { s with worker := .rendered job r elapsed }
  /-- lines 499-505: `renderer.render` returns `Err`; the job is counted
  canceled and the loop continues. -/
  | workerRenderErr (s : PipelineState) (job : ScheduledJob) :
      s.worker = .rendering job →
      Step s { s with worker := .waiting, metrics := mark_canceled s.metrics 1 }
  /-- lines 508-511: post-render staleness check fails, finished frame
  discarded, job canceled. -/
  | workerPostStale (s : PipelineState) (job : ScheduledJob)
      (r : RenderedPreview) (elapsed : ℕ) :
      s.worker = .rendered job r elapsed → job.sequence < s.latest_sequence →
      Step s { s with worker := .waiting, metrics := mark_canceled s.metrics 1 }
  /-- lines 513-528: publish the frame, count it completed, push the render
  sample. -/
  | workerPublish (s : PipelineState) (job : ScheduledJob)
      (r : RenderedPreview) (elapsed : ℕ) :
      s.worker = .rendered job r elapsed → ¬ job.sequence < s.latest_sequence →
      Step s { s with worker := .waiting
                      result_queue := s.result_queue ++ [frame_of job r elapsed]
                      metrics := MetricsState.push_render_sample
                        { s.metrics with completed_jobs := s.metrics.completed_jobs + 1 }
                        elapsed }

/-- Initial pipeline state (`with_renderer`, lines 388-410). -/
def init_state : PipelineState :=
  { next_sequence := 0, latest_sequence := 0
    submit_queue := [], result_queue := []
    metrics := MetricsState.initial
    worker := .waiting, caller := .ready, delivered := [] }

/-- States reachable by an execution of the pipeline. -/
inductive Reachable : PipelineState → Prop where
  | init : Reachable init_state
  | step {s s' : PipelineState} : Reachable s → Step s s' → Reachable s'

/-- The sequence number of the job the worker currently holds, if any. -/
def hand_seqs : WorkerPhase → List ℕ
  | .waiting => []
  | .coalescing job => [job.sequence]
  | .checking job => [job.sequence]
  | .rendering job => [job.sequence]
  | .rendered job _ _ => [job.sequence]

/-- The job the worker currently holds, if any. -/
def hand_job : WorkerPhase → Option ScheduledJob
  | .waiting => none
  | .coalescing job => some job
  | .checking job => some job
  | .rendering job => some job
  | .rendered job _ _ => some job

/-- The sequence number a mid-`submit_preview` caller has already assigned. -/
def caller_pending : CallerPhase → Option ℕ
  | .ready => none
  | .assigned seq _ => some seq
  | .storedLatest seq _ => some seq
  | .counted seq _ => some seq

/-- Every sequence number alive in the system, oldest first: delivered
frames, then frames waiting in the result channel, then the job in the
worker's hand, then the jobs waiting in the submit channel. -/
def state_seqs (s : PipelineState) : List ℕ :=
  s.delivered.map PreviewFrame.sequence ++ s.result_queue.map PreviewFrame.sequence
    ++ hand_seqs s.worker ++ s.submit_queue.map ScheduledJob.sequence

/-- The inductive invariant of the pipeline machine: `state_seqs` is
strictly increasing, bounded by the sequence counter, the latest-sequence
atomic never exceeds the counter, and a mid-submit caller holds the counter
value, strictly above every sequence alive in the system. -/
structure Inv (s : PipelineState) : Prop where
  sorted : List.Pairwise (· < ·) (state_seqs s)
  bounded : ∀ x ∈ state_seqs s, x ≤ s.next_sequence
  latest_le : s.latest_sequence ≤ s.next_sequence
  pending_eq : ∀ seq ∈ caller_pending s.caller, seq = s.next_sequence
  pending_gt : ∀ seq ∈ caller_pending s.caller, ∀ x ∈ state_seqs s, x < seq

/-! ### A concrete execution ending in a render failure

Eight steps: one full `submit_preview` of the single job of the run, the
worker picks it up, both pre-render checks pass, and the render fails.
Used to exhibit the `canceled_jobs` increment that happens with no newer
submission anywhere in the system. -/

/-- A concrete request. -/
def ex_request : PreviewRequest :=
  { image_id := 1, source_path := "image.jpg"
    params := { exposure := 0, contrast := 0, temperature := 0
                tint := 0, highlights := 0, shadows := 0 }
    target_width := 8, target_height := 8 }

/-- The concrete job of the single-submission run. -/
def ex_job : ScheduledJob := { sequence := 1, request := ex_request }

/-- After `next_sequence.fetch_add`. -/
def ex_state1 : PipelineState :=
  { init_state with next_sequence := 1, caller := .assigned 1 ex_request }

/-- After `latest_sequence.store`. -/
def ex_state2 : PipelineState :=
  { ex_state1 with latest_sequence := 1, caller := .storedLatest 1 ex_request }

/-- After `submitted_jobs += 1`. -/
def ex_state3 : PipelineState :=
  { ex_state2 with
    metrics := { ex_state2.metrics with submitted_jobs := 1 }
    caller := .counted 1 ex_request }

/-- After `submit_tx.send`. -/
def ex_state4 : PipelineState :=
  { ex_state3 with submit_queue := [ex_job], caller := .ready }

/-- After the worker's blocking `recv`. -/
def ex_state5 : PipelineState :=
  { ex_state4 with worker := .coalescing ex_job, submit_queue := [] }

/-- After the drain-coalesce loop sees the channel empty. -/
def ex_state6 : PipelineState :=
  { ex_state5 with worker := .checking ex_job }

/-- After the pre-render staleness check passes. -/
def ex_state7 : PipelineState :=
  { ex_state6 with worker := .rendering ex_job }

/-- After `renderer.render` fails: job counted canceled. -/
def ex_state8 : PipelineState :=
  { ex_state7 with worker := .waiting, metrics := mark_canceled ex_state7.metrics 1 }

/-- A concrete frame with a given sequence number, for witnesses. -/
def ex_frame (n : ℕ) : PreviewFrame :=
  { image_id := 1, sequence := n, width := 8, height := 8
    render_time_ms := 3, pixels := [0] }

/-- All six tone parameters at zero. -/
def neutral_params : EditParams :=
  { exposure := 0, contrast := 0, temperature := 0
    tint := 0, highlights := 0, shadows := 0 }

/-! ## Theorems -/

/-- The drain loop returns the last frame of the channel snapshot and counts
every frame it displaced. -/
theorem drain_newest_spec :
    ∀ (rest : List PreviewFrame) (first : PreviewFrame),
      (first :: rest).getLast? = some (drain_newest first rest).1 ∧
      (drain_newest first rest).2 = rest.length := by
  intro rest
  induction rest with
  | nil => intro first; simp [drain_newest]
  | cons next rest ih =>
    intro first
    refine ⟨?_, ?_⟩
    · rw [List.getLast?_cons_cons]
      exact ((ih next).1).trans (by simp [drain_newest])
    · simpa [drain_newest] using (ih next).2

/-- C1: `try_receive_preview` is a coalescing non-blocking read: on a
non-empty result channel it returns the newest (last) frame, empties the
channel, and adds `k - 1` to the dropped-frame counter; on an empty channel
(worker alive) it returns `none` and leaves the metrics untouched. -/
theorem try_receive_preview_coalesces :
    (∀ (queue : List PreviewFrame) (metrics : MetricsState), queue ≠ [] →
      ∃ newest, queue.getLast? = some newest ∧
        try_receive_preview queue true metrics =
          (.ok (some newest), [],
           { metrics with dropped_frames := metrics.dropped_frames + (queue.length - 1) })) ∧
    (∀ metrics : MetricsState,
      try_receive_preview [] true metrics = (.ok none, [], metrics)) := by
  constructor
  · intro queue metrics hne
    match queue with
    | first :: rest =>
      have hd := drain_newest_spec rest first
      refine ⟨(drain_newest first rest).1, hd.1, ?_⟩
      simp only [try_receive_preview, hd.2]
      cases rest with
      | nil => simp
      | cons b t => simp
  · intro metrics
    rfl

/-- Witness for C1 at a two-frame channel and at the empty channel. -/
theorem try_receive_preview_coalesces_witness :
    (∃ newest, ([ex_frame 1, ex_frame 2] : List PreviewFrame).getLast? = some newest ∧
      try_receive_preview [ex_frame 1, ex_frame 2] true MetricsState.initial =
        (.ok (some newest), [],
         { MetricsState.initial with
            dropped_frames :=
              MetricsState.initial.dropped_frames +
                (([ex_frame 1, ex_frame 2] : List PreviewFrame).length - 1) })) ∧
    try_receive_preview [] true MetricsState.initial = (.ok none, [], MetricsState.initial) :=
  ⟨try_receive_preview_coalesces.1 [ex_frame 1, ex_frame 2] MetricsState.initial (by simp),
   try_receive_preview_coalesces.2 MetricsState.initial⟩

/-- C9: both renderers reject a zero-dimension target with the invalid-input
error, for every possible decoder — i.e. before any sizing or decode work. -/
theorem renderers_reject_zero_dimensions :
    ∀ (decode : DecodeFun) (request : PreviewRequest),
      request.target_width = 0 ∨ request.target_height = 0 →
      cpu_stage_render decode request =
        .error (.invalidInput "preview target dimensions must be non-zero") ∧
      wgpu_render decode request =
        .error (.invalidInput "preview target dimensions must be non-zero") := by
  intro decode request h
  rcases h with h | h <;>
    exact ⟨by simp [cpu_stage_render, h]; rfl, by simp [wgpu_render, h]; rfl⟩

/-- Witness for C9: a `target_width = 0` request fails on both renderers,
with a decoder that would happily return an empty buffer. -/
theorem renderers_reject_zero_dimensions_witness :
    cpu_stage_render (fun _ _ _ => .ok []) { ex_request with target_width := 0 } =
      .error (.invalidInput "preview target dimensions must be non-zero") ∧
    wgpu_render (fun _ _ _ => .ok []) { ex_request with target_width := 0 } =
      .error (.invalidInput "preview target dimensions must be non-zero") :=
  renderers_reject_zero_dimensions _ _ (Or.inl rfl)

/-- C4: `submit_preview` assigns `next_sequence + 1`, so successive calls
assign 1, 2, 3, …; it stores the assigned sequence as the latest-known
sequence (even when the enqueue fails, i.e. the store precedes the send) and
increments the submitted counter by exactly one; on success the job enqueued
carries the assigned sequence. -/
theorem submit_preview_sequencing :
    ∀ (s : FacadeState) (request : PreviewRequest) (worker_alive : Bool),
      (submit_preview s request worker_alive).2.next_sequence = s.next_sequence + 1 ∧
      (submit_preview s request worker_alive).2.latest_sequence = s.next_sequence + 1 ∧
      (submit_preview s request worker_alive).2.metrics.submitted_jobs =
        s.metrics.submitted_jobs + 1 ∧
      (worker_alive = true →
        (submit_preview s request worker_alive).1 = .ok () ∧
        (submit_preview s request worker_alive).2.submit_queue =
          s.submit_queue ++ [⟨s.next_sequence + 1, request⟩]) ∧
      (∀ (request' : PreviewRequest) (worker_alive' : Bool),
        (submit_preview (submit_preview s request worker_alive).2
            request' worker_alive').2.next_sequence = s.next_sequence + 2) ∧
      (submit_preview FacadeState.initial request worker_alive).2.latest_sequence = 1 := by
  intro s request worker_alive
  cases worker_alive with
  | false =>
    refine ⟨rfl, rfl, rfl, ?_, ?_, rfl⟩
    · intro h; exact absurd h (by simp)
    · intro request' worker_alive'; cases worker_alive' <;> rfl
  | true =>
    refine ⟨rfl, rfl, rfl, ?_, ?_, rfl⟩
    · intro h; exact ⟨rfl, rfl⟩
    · intro request' worker_alive'; cases worker_alive' <;> rfl

/-- Witness for C4 at the initial facade state with a live worker. -/
theorem submit_preview_sequencing_witness :
    (submit_preview FacadeState.initial ex_request true).2.next_sequence =
      FacadeState.initial.next_sequence + 1 ∧
    (submit_preview FacadeState.initial ex_request true).2.latest_sequence =
      FacadeState.initial.next_sequence + 1 ∧
    (submit_preview FacadeState.initial ex_request true).2.metrics.submitted_jobs =
      FacadeState.initial.metrics.submitted_jobs + 1 ∧
    (true = true →
      (submit_preview FacadeState.initial ex_request true).1 = .ok () ∧
      (submit_preview FacadeState.initial ex_request true).2.submit_queue =
        FacadeState.initial.submit_queue ++ [⟨FacadeState.initial.next_sequence + 1, ex_request⟩]) ∧
    (∀ (request' : PreviewRequest) (worker_alive' : Bool),
      (submit_preview (submit_preview FacadeState.initial ex_request true).2
          request' worker_alive').2.next_sequence = FacadeState.initial.next_sequence + 2) ∧
    (submit_preview FacadeState.initial ex_request true).2.latest_sequence = 1 :=
  submit_preview_sequencing FacadeState.initial ex_request true

/-- C10: when the send to the worker fails, `submit_preview` returns the
error but has already advanced the sequence counter, stored the new latest
sequence, and incremented the submitted counter; only the queue is
unchanged — and every previously assigned sequence is now stale. -/
theorem submit_preview_failure_not_atomic :
    ∀ (s : FacadeState) (request : PreviewRequest),
      (∃ msg, submit_preview s request false =
        (.error (.io msg),
         { next_sequence := s.next_sequence + 1
           latest_sequence := s.next_sequence + 1
           metrics := { s.metrics with submitted_jobs := s.metrics.submitted_jobs + 1 }
           submit_queue := s.submit_queue })) ∧
      (∀ seq : ℕ, seq ≤ s.next_sequence →
        seq < (submit_preview s request false).2.latest_sequence) := by
  intro s request
  refine ⟨⟨"failed to enqueue preview job: sending on a closed channel", rfl⟩, ?_⟩
  intro seq hseq
  have : (submit_preview s request false).2.latest_sequence = s.next_sequence + 1 := rfl
  omega

/-- Witness for C10 at the initial facade state. -/
theorem submit_preview_failure_not_atomic_witness :
    (∃ msg, submit_preview FacadeState.initial ex_request false =
      (.error (.io msg),
       { next_sequence := FacadeState.initial.next_sequence + 1
         latest_sequence := FacadeState.initial.next_sequence + 1
         metrics := { FacadeState.initial.metrics with
                        submitted_jobs := FacadeState.initial.metrics.submitted_jobs + 1 }
         submit_queue := FacadeState.initial.submit_queue })) ∧
    (∀ seq : ℕ, seq ≤ FacadeState.initial.next_sequence →
      seq < (submit_preview FacadeState.initial ex_request false).2.latest_sequence) :=
  submit_preview_failure_not_atomic FacadeState.initial ex_request

/-- The nearest-rank index is always inside the sorted window. -/
theorem percentile_index_lt (n : ℕ) (hn : 0 < n) :
    (round (((n - 1 : ℕ) : ℚ) * (19 / 20))).toNat < n := by
  have h1 : ((n - 1 : ℕ) : ℚ) * (19 / 20) ≤ ((n - 1 : ℕ) : ℚ) := by
    apply mul_le_of_le_one_right (by positivity)
    norm_num
  have h2 : round (((n - 1 : ℕ) : ℚ) * (19 / 20)) ≤ round ((n - 1 : ℕ) : ℚ) := by
    rw [round_eq, round_eq]
    exact Int.floor_le_floor (by linarith)
  rw [round_natCast] at h2
  have h3 : (round (((n - 1 : ℕ) : ℚ) * (19 / 20))).toNat ≤ n - 1 :=
    Int.toNat_le.mpr h2
  omega

/-- C8: the 95th-percentile latency is the element at nearest-rank index
`round ((n - 1) * 0.95)` of a sorted copy of the window; it is `None`
exactly on the empty window; and on the window `[10, 20, …, 100]` it is the
maximum, 100, not an interpolated value. -/
theorem percentile_95_nearest_rank :
    percentile_95 [10, 20, 30, 40, 50, 60, 70, 80, 90, 100] = some 100 ∧
    (∀ samples : List ℕ, percentile_95 samples = none ↔ samples = []) ∧
    (∀ samples : List ℕ, samples ≠ [] →
      ∃ sorted, samples.Perm sorted ∧ List.Sorted (· ≤ ·) sorted ∧
        percentile_95 samples =
          sorted[(round (((sorted.length - 1 : ℕ) : ℚ) * (19 / 20))).toNat]?) := by
  have hsort : ∀ samples : List ℕ,
      List.Sorted (· ≤ ·) (samples.mergeSort (fun a b => decide (a ≤ b))) := by
    intro samples
    exact List.sorted_mergeSort' samples
  refine ⟨?_, ?_, ?_⟩
  · have hs : List.Sorted (· ≤ ·) ([10, 20, 30, 40, 50, 60, 70, 80, 90, 100] : List ℕ) := by
      decide
    simp only [percentile_95, List.mergeSort_eq_self hs]
    norm_num [round_eq]
    rfl
  · intro samples
    cases samples with
    | nil => simp [percentile_95]
    | cons a t =>
      simp only [percentile_95, List.isEmpty_cons, if_false, Bool.false_eq_true]
      have hlen : ((a :: t).mergeSort (fun a b => decide (a ≤ b))).length = t.length + 1 := by
        simp [List.length_mergeSort]
      rw [List.getElem?_eq_getElem]
      · simp
      · rw [hlen]
        exact percentile_index_lt (t.length + 1) (Nat.succ_pos _)
  · intro samples hne
    refine ⟨samples.mergeSort (fun a b => decide (a ≤ b)),
      (List.mergeSort_perm samples _).symm, hsort samples, ?_⟩
    simp only [percentile_95]
    rw [if_neg]
    simpa using hne

/-- Witness for C8 on the unsorted window `[20, 10]`. -/
theorem percentile_95_nearest_rank_witness :
    ∃ sorted, ([20, 10] : List ℕ).Perm sorted ∧ List.Sorted (· ≤ ·) sorted ∧
      percentile_95 [20, 10] =
        sorted[(round (((sorted.length - 1 : ℕ) : ℚ) * (19 / 20))).toNat]? :=
  percentile_95_nearest_rank.2.2 [20, 10] (by simp)

/-- `⌊√6000000000000⌋`, by squeezing between consecutive squares. -/
theorem sqrt_six_tera : Nat.sqrt 6000000000000 = 2449489 := by
  have h1 : 2449489 ≤ Nat.sqrt 6000000000000 := Nat.le_sqrt.mpr (by norm_num)
  have h2 : Nat.sqrt 6000000000000 < 2449490 := Nat.sqrt_lt.mpr (by norm_num)
  omega

/-- `⌊√2666666⌋`. -/
theorem sqrt_target_w : Nat.sqrt 2666666 = 1632 := by
  have h1 : 1632 ≤ Nat.sqrt 2666666 := Nat.le_sqrt.mpr (by norm_num)
  have h2 : Nat.sqrt 2666666 < 1633 := Nat.sqrt_lt.mpr (by norm_num)
  omega

/-- `⌊√1500000⌋`. -/
theorem sqrt_target_h : Nat.sqrt 1500000 = 1224 := by
  have h1 : 1224 ≤ Nat.sqrt 1500000 := Nat.le_sqrt.mpr (by norm_num)
  have h2 : Nat.sqrt 1500000 < 1225 := Nat.sqrt_lt.mpr (by norm_num)
  omega

/-- Counterexample to C5: for the request 1 × 3000000 (an extreme aspect
ratio) the width scales to 0 and is clamped to 1, and the returned
dimensions multiply to 2449489 pixels — above the 2000000 budget.  (The
returned pixel-count component is clamped to the budget, but the dimensions
are not.) -/
theorem render_target_budget_violation :
    render_target 1 3000000 = .ok (1, 2449489, 2000000) ∧
    MAX_RENDER_PIXELS < 1 * 2449489 := by
  constructor
  · simp only [render_target, USIZE_BOUND, MAX_RENDER_PIXELS]
    norm_num [sqrt_six_tera]
  · norm_num [MAX_RENDER_PIXELS]

/-- C5 (amended): within-budget requests pass through unchanged; an
over-budget request is scaled by the common factor `√(budget / pixels)` on
both axes (floored, clamped below by 1) with the returned pixel count
clamped to the budget; the *dimension* product respects the budget whenever
neither axis hit the clamp to 1 — in particular for 4000 × 3000, which maps
to 1632 × 1224 = 1997568 ≤ 2000000 in the exact 4:3 ratio. -/
theorem render_target_amended :
    (∀ w h : ℕ, w * h ≤ MAX_RENDER_PIXELS → render_target w h = .ok (w, h, w * h)) ∧
    (∀ w h : ℕ, MAX_RENDER_PIXELS < w * h → w * h < USIZE_BOUND →
      ∃ rwidth rheight : ℕ,
        render_target w h = .ok (rwidth, rheight, min (rwidth * rheight) MAX_RENDER_PIXELS) ∧
        rwidth = max (Nat.sqrt (MAX_RENDER_PIXELS * w * w / (w * h))) 1 ∧
        rheight = max (Nat.sqrt (MAX_RENDER_PIXELS * h * h / (w * h))) 1 ∧
        min (rwidth * rheight) MAX_RENDER_PIXELS ≤ MAX_RENDER_PIXELS ∧
        (1 ≤ Nat.sqrt (MAX_RENDER_PIXELS * w * w / (w * h)) →
         1 ≤ Nat.sqrt (MAX_RENDER_PIXELS * h * h / (w * h)) →
         rwidth * rheight ≤ MAX_RENDER_PIXELS)) ∧
    (render_target 4000 3000 = .ok (1632, 1224, 1632 * 1224) ∧
     1632 * 1224 ≤ MAX_RENDER_PIXELS ∧ 1632 * 3000 = 1224 * 4000) := by
  refine ⟨?_, ?_, ?_, by norm_num [MAX_RENDER_PIXELS], by norm_num⟩
  · intro w h hle
    have h1 : ¬ w * h ≥ USIZE_BOUND := by
      simp only [MAX_RENDER_PIXELS] at hle
      simp only [USIZE_BOUND]
      omega
    simp [render_target, h1, hle]
  · intro w h hgt hlt
    have hw : 0 < w := by
      rcases Nat.eq_zero_or_pos w with rfl | hw
      · simp [MAX_RENDER_PIXELS] at hgt
      · exact hw
    have hh : 0 < h := by
      rcases Nat.eq_zero_or_pos h with rfl | hh
      · simp [MAX_RENDER_PIXELS] at hgt
      · exact hh
    have h1 : ¬ w * h ≥ USIZE_BOUND := by omega
    have h2 : ¬ w * h ≤ MAX_RENDER_PIXELS := by omega
    have hwh : 0 < w * h := Nat.mul_pos hw hh
    have hsa : Nat.sqrt (MAX_RENDER_PIXELS * w * w / (w * h)) ≤ w := by
      have : MAX_RENDER_PIXELS * w * w / (w * h) ≤ w * w := by
        apply Nat.div_le_of_le_mul
        calc MAX_RENDER_PIXELS * w * w ≤ (w * h) * w * w := by
              have := le_of_lt hgt
              exact Nat.mul_le_mul_right w (Nat.mul_le_mul_right w this)
          _ = w * h * (w * w) := by ring
      calc Nat.sqrt (MAX_RENDER_PIXELS * w * w / (w * h))
          ≤ Nat.sqrt (w * w) := Nat.sqrt_le_sqrt this
        _ = w := Nat.sqrt_eq w
    have hsb : Nat.sqrt (MAX_RENDER_PIXELS * h * h / (w * h)) ≤ h := by
      have : MAX_RENDER_PIXELS * h * h / (w * h) ≤ h * h := by
        apply Nat.div_le_of_le_mul
        calc MAX_RENDER_PIXELS * h * h ≤ (w * h) * h * h := by
              have := le_of_lt hgt
              exact Nat.mul_le_mul_right h (Nat.mul_le_mul_right h this)
          _ = w * h * (h * h) := by ring
      calc Nat.sqrt (MAX_RENDER_PIXELS * h * h / (w * h))
          ≤ Nat.sqrt (h * h) := Nat.sqrt_le_sqrt this
        _ = h := Nat.sqrt_eq h
    have hmw : max (Nat.sqrt (MAX_RENDER_PIXELS * w * w / (w * h))) 1 ≤ w :=
      max_le hsa hw
    have hmh : max (Nat.sqrt (MAX_RENDER_PIXELS * h * h / (w * h))) 1 ≤ h :=
      max_le hsb hh
    have h3 : ¬ max (Nat.sqrt (MAX_RENDER_PIXELS * w * w / (w * h))) 1 *
        max (Nat.sqrt (MAX_RENDER_PIXELS * h * h / (w * h))) 1 ≥ USIZE_BOUND := by
      have := Nat.mul_le_mul hmw hmh
      omega
    refine ⟨_, _, ?_, rfl, rfl, min_le_right _ _, ?_⟩
    · simp [render_target, h1, h2, h3]
    · intro ha hb
      rw [Nat.max_eq_left ha, Nat.max_eq_left hb]
      have sab : Nat.sqrt (MAX_RENDER_PIXELS * w * w / (w * h)) *
          Nat.sqrt (MAX_RENDER_PIXELS * h * h / (w * h)) ≤
          Nat.sqrt ((MAX_RENDER_PIXELS * w * w / (w * h)) *
            (MAX_RENDER_PIXELS * h * h / (w * h))) := by
        rw [Nat.le_sqrt, Nat.mul_mul_mul_comm]
        exact Nat.mul_le_mul (Nat.sqrt_le _) (Nat.sqrt_le _)
      have hab : (MAX_RENDER_PIXELS * w * w / (w * h)) *
          (MAX_RENDER_PIXELS * h * h / (w * h)) ≤
          MAX_RENDER_PIXELS * MAX_RENDER_PIXELS := by
        calc (MAX_RENDER_PIXELS * w * w / (w * h)) *
            (MAX_RENDER_PIXELS * h * h / (w * h))
            ≤ (MAX_RENDER_PIXELS * w * w) * (MAX_RENDER_PIXELS * h * h) /
                ((w * h) * (w * h)) := Nat.div_mul_div_le _ _ _ _
          _ = MAX_RENDER_PIXELS * MAX_RENDER_PIXELS * ((w * h) * (w * h)) /
                ((w * h) * (w * h)) := by ring_nf
          _ = MAX_RENDER_PIXELS * MAX_RENDER_PIXELS :=
                Nat.mul_div_cancel _ (Nat.mul_pos hwh hwh)
      calc Nat.sqrt (MAX_RENDER_PIXELS * w * w / (w * h)) *
          Nat.sqrt (MAX_RENDER_PIXELS * h * h / (w * h))
          ≤ Nat.sqrt ((MAX_RENDER_PIXELS * w * w / (w * h)) *
              (MAX_RENDER_PIXELS * h * h / (w * h))) := sab
        _ ≤ Nat.sqrt (MAX_RENDER_PIXELS * MAX_RENDER_PIXELS) := Nat.sqrt_le_sqrt hab
        _ = MAX_RENDER_PIXELS := Nat.sqrt_eq _
  · simp only [render_target, USIZE_BOUND, MAX_RENDER_PIXELS]
    norm_num [sqrt_target_w, sqrt_target_h]

/-- Witness for C5 (amended) at the spec's own 4000 × 3000 instance. -/
theorem render_target_amended_witness :
    ∃ rwidth rheight : ℕ,
      render_target 4000 3000 =
        .ok (rwidth, rheight, min (rwidth * rheight) MAX_RENDER_PIXELS) ∧
      rwidth = max (Nat.sqrt (MAX_RENDER_PIXELS * 4000 * 4000 / (4000 * 3000))) 1 ∧
      rheight = max (Nat.sqrt (MAX_RENDER_PIXELS * 3000 * 3000 / (4000 * 3000))) 1 ∧
      min (rwidth * rheight) MAX_RENDER_PIXELS ≤ MAX_RENDER_PIXELS ∧
      (1 ≤ Nat.sqrt (MAX_RENDER_PIXELS * 4000 * 4000 / (4000 * 3000)) →
       1 ≤ Nat.sqrt (MAX_RENDER_PIXELS * 3000 * 3000 / (4000 * 3000)) →
       rwidth * rheight ≤ MAX_RENDER_PIXELS) :=
  render_target_amended.2.1 4000 3000 (by norm_num [MAX_RENDER_PIXELS])
    (by norm_num [USIZE_BOUND])

/-- `fclamp` is the identity inside the clamp range. -/
theorem fclamp_eq (q lo hi : ℚ) (hlo : lo ≤ q) (hhi : q ≤ hi) : fclamp q lo hi = q := by
  simp [fclamp, max_eq_left hlo, min_eq_left hhi]

/-- A normalised 8-bit channel lies in `[0, 1]`. -/
theorem channel_div_mem (c : ℕ) (hc : c < 256) : 0 ≤ (c : ℚ) / 255 ∧ (c : ℚ) / 255 ≤ 1 := by
  constructor
  · positivity
  · rw [div_le_one (by norm_num)]
    exact_mod_cast Nat.le_of_lt_succ hc

/-- Round-tripping a channel through normalisation is the identity. -/
theorem round_channel_id (c : ℕ) : (round ((c : ℚ) / 255 * 255)).toNat = c := by
  rw [div_mul_cancel₀ _ (by norm_num : (255 : ℚ) ≠ 0), round_natCast]
  simp

/-- Exposure/contrast channel stage at neutral parameters. -/
theorem ec_channel_neutral (c : ℕ) (hc : c < 256) :
    apply_exposure_and_contrast_channel c 1 1 = c := by
  obtain ⟨h0, h1⟩ := channel_div_mem c hc
  simp only [apply_exposure_and_contrast_channel]
  rw [show ((c : ℚ) / 255 * 1 - 1/2) * 1 + 1/2 = (c : ℚ) / 255 by ring]
  rw [fclamp_eq _ 0 1 h0 h1, round_channel_id]

/-- Highlights/shadows channel stage at neutral parameters. -/
theorem hs_channel_neutral (c : ℕ) (hc : c < 256) :
    apply_highlights_shadows_channel c 0 0 = c := by
  obtain ⟨h0, h1⟩ := channel_div_mem c hc
  simp only [apply_highlights_shadows_channel, mul_zero, add_zero, sub_zero]
  rw [fclamp_eq _ 0 1 h0 h1, round_channel_id]

/-- Temperature/tint pixel stage at neutral parameters. -/
theorem tt_pixel_neutral (p : ℕ) (hp : p < 2 ^ 24) :
    apply_temperature_tint_pixel p 0 0 = p := by
  obtain ⟨hr0, hr1⟩ := channel_div_mem (p / 65536 % 256) (Nat.mod_lt _ (by norm_num))
  obtain ⟨hg0, hg1⟩ := channel_div_mem (p / 256 % 256) (Nat.mod_lt _ (by norm_num))
  obtain ⟨hb0, hb1⟩ := channel_div_mem (p % 256) (Nat.mod_lt _ (by norm_num))
  simp only [apply_temperature_tint_pixel, unpack_rgb, add_zero, sub_zero]
  rw [fclamp_eq _ 0 1 hr0 hr1, fclamp_eq _ 0 1 hb0 hb1, fclamp_eq _ 0 1 hg0 hg1,
      round_channel_id, round_channel_id, round_channel_id]
  simp only [pack_rgb]
  omega

/-- Exposure/contrast pixel stage at neutral parameters. -/
theorem ec_pixel_neutral (p : ℕ) (hp : p < 2 ^ 24) :
    apply_exposure_contrast_pixel p 1 1 = p := by
  simp only [apply_exposure_contrast_pixel, unpack_rgb]
  rw [ec_channel_neutral _ (Nat.mod_lt _ (by norm_num)),
      ec_channel_neutral _ (Nat.mod_lt _ (by norm_num)),
      ec_channel_neutral _ (Nat.mod_lt _ (by norm_num))]
  simp only [pack_rgb]
  omega

/-- Highlights/shadows pixel stage at neutral parameters. -/
theorem hs_pixel_neutral (p : ℕ) (hp : p < 2 ^ 24) :
    apply_highlights_shadows_pixel p 0 0 = p := by
  simp only [apply_highlights_shadows_pixel, unpack_rgb]
  rw [hs_channel_neutral _ (Nat.mod_lt _ (by norm_num)),
      hs_channel_neutral _ (Nat.mod_lt _ (by norm_num)),
      hs_channel_neutral _ (Nat.mod_lt _ (by norm_num))]
  simp only [pack_rgb]
  omega

/-- The derived neutral strengths. -/
theorem neutral_strengths :
    exposure_gain_of 0 = 1 ∧ (1 + fclamp 0 (-5) 5 * (3/25) : ℚ) = 1 ∧
    (fclamp 0 (-5) 5 * (7/200) : ℚ) = 0 ∧ (fclamp 0 (-5) 5 * (2/25) : ℚ) = 0 := by
  refine ⟨?_, ?_, ?_, ?_⟩ <;> norm_num [exposure_gain_of, fclamp]

/-- The full CPU tone transform is the identity on one in-range pixel at
neutral parameters. -/
theorem cpu_tone_pixel_neutral (p : ℕ) (hp : p < 2 ^ 24) :
    cpu_tone_pixel p neutral_params = p := by
  obtain ⟨hg, hf, ht, hh⟩ := neutral_strengths
  simp only [cpu_tone_pixel, neutral_params]
  rw [hg, hf, ht, hh]
  rw [ec_pixel_neutral p hp, tt_pixel_neutral p hp, hs_pixel_neutral p hp]

/-- The shader body is the floor-quantised composition of the design-level
tone stages: identical stage expressions, identical clamp ranges, identical
order, with red shifted by `+temp`, green by `+tint`, blue by `-temp`, and a
single 8-bit conversion at the very end. -/
theorem preview_shader_pixel_eq_stages (p : ℕ) (params : EditParams) :
    preview_shader_pixel p params =
      pack_rgb
        (shader_to_u8 (tone_stage_hs (tone_stage_shift
          (tone_stage_ec ((p / 65536 % 256 : ℕ) / 255) (exposure_gain_of params.exposure)
            (1 + fclamp params.contrast (-5) 5 * (3/25)))
          (fclamp params.temperature (-5) 5 * (7/200)))
          (fclamp params.highlights (-5) 5 * (2/25)) (fclamp params.shadows (-5) 5 * (2/25))))
        (shader_to_u8 (tone_stage_hs (tone_stage_shift
          (tone_stage_ec ((p / 256 % 256 : ℕ) / 255) (exposure_gain_of params.exposure)
            (1 + fclamp params.contrast (-5) 5 * (3/25)))
          (fclamp params.tint (-5) 5 * (7/200)))
          (fclamp params.highlights (-5) 5 * (2/25)) (fclamp params.shadows (-5) 5 * (2/25))))
        (shader_to_u8 (tone_stage_hs (tone_stage_shift
          (tone_stage_ec ((p % 256 : ℕ) / 255) (exposure_gain_of params.exposure)
            (1 + fclamp params.contrast (-5) 5 * (3/25)))
          (-(fclamp params.temperature (-5) 5 * (7/200))))
          (fclamp params.highlights (-5) 5 * (2/25)) (fclamp params.shadows (-5) 5 * (2/25)))) := by
  simp only [preview_shader_pixel, tone_stage_ec, tone_stage_shift, tone_stage_hs,
    pack_rgb, sub_eq_add_neg]

/-- One shader channel at neutral parameters is the identity. -/
theorem shader_channel_neutral (c : ℕ) (hc : c < 256) :
    shader_to_u8 (tone_stage_hs (tone_stage_shift (tone_stage_ec ((c : ℚ) / 255) 1 1) 0) 0 0)
      = c := by
  obtain ⟨h0, h1⟩ := channel_div_mem c hc
  have e1 : tone_stage_ec ((c : ℚ) / 255) 1 1 = (c : ℚ) / 255 := by
    simp only [tone_stage_ec]
    rw [show ((c : ℚ) / 255 * 1 - 1/2) * 1 + 1/2 = (c : ℚ) / 255 by ring]
    exact fclamp_eq _ 0 1 h0 h1
  have e2 : tone_stage_shift ((c : ℚ) / 255) 0 = (c : ℚ) / 255 := by
    simp only [tone_stage_shift, add_zero]
    exact fclamp_eq _ 0 1 h0 h1
  have e3 : tone_stage_hs ((c : ℚ) / 255) 0 0 = (c : ℚ) / 255 := by
    simp only [tone_stage_hs, mul_zero, add_zero, sub_zero]
    exact fclamp_eq _ 0 1 h0 h1
  rw [e1, e2, e3]
  simp only [shader_to_u8]
  rw [div_mul_cancel₀ _ (by norm_num : (255 : ℚ) ≠ 0)]
  rw [fclamp_eq _ 0 255 (by positivity) (by exact_mod_cast Nat.le_of_lt_succ hc)]
  simp

/-- The shader is the identity on one in-range pixel at neutral
parameters. -/
theorem preview_shader_pixel_neutral (p : ℕ) (hp : p < 2 ^ 24) :
    preview_shader_pixel p neutral_params = p := by
  obtain ⟨hg, hf, ht, hh⟩ := neutral_strengths
  rw [preview_shader_pixel_eq_stages]
  simp only [neutral_params]
  rw [hg, hf, ht, hh, neg_zero]
  rw [shader_channel_neutral _ (Nat.mod_lt _ (by norm_num)),
      shader_channel_neutral _ (Nat.mod_lt _ (by norm_num)),
      shader_channel_neutral _ (Nat.mod_lt _ (by norm_num))]
  simp only [pack_rgb]
  omega

/-- C7: at all-zero parameters the CPU tone pipeline (exposure/contrast,
then temperature/tint, then highlights/shadows) reproduces every packed
`0x00RRGGBB` buffer exactly. -/
theorem tone_transform_neutral_identity :
    ∀ pixels : List ℕ, (∀ p ∈ pixels, p < 2 ^ 24) →
      apply_highlights_shadows
        (apply_temperature_tint (apply_exposure_contrast pixels 0 0) 0 0) 0 0 = pixels := by
  intro pixels hb
  obtain ⟨hg, hf, ht, hh⟩ := neutral_strengths
  have hec : apply_exposure_contrast pixels 0 0 = pixels := by
    simp only [apply_exposure_contrast]
    rw [hg, hf]
    rw [List.map_congr_left (fun p hp => ec_pixel_neutral p (hb p hp))]
    exact List.map_id pixels
  have htt : apply_temperature_tint pixels 0 0 = pixels := by
    simp only [apply_temperature_tint]
    rw [ht]
    rw [List.map_congr_left (fun p hp => tt_pixel_neutral p (hb p hp))]
    exact List.map_id pixels
  have hhs : apply_highlights_shadows pixels 0 0 = pixels := by
    simp only [apply_highlights_shadows]
    rw [hh]
    rw [List.map_congr_left (fun p hp => hs_pixel_neutral p (hb p hp))]
    exact List.map_id pixels
  rw [hec, htt, hhs]

/-- Witness for C7 on a three-pixel buffer. -/
theorem tone_transform_neutral_identity_witness :
    apply_highlights_shadows
      (apply_temperature_tint
        (apply_exposure_contrast [13158600, 0, 16777215] 0 0) 0 0) 0 0 =
      [13158600, 0, 16777215] :=
  tone_transform_neutral_identity [13158600, 0, 16777215] (by decide)

/-- C6 (amended): the compute kernel runs the same tone stages with the same
clamp ranges in the same order as the CPU path (red `+temp`, blue `-temp`,
green `+tint`), and the two paths agree at neutral parameters; but the
kernel converts to 8 bits once, at the end, by truncation, while the CPU
path rounds to nearest and re-quantises the channels after every stage, so
the 8-bit outputs are not equal in general. -/
theorem gpu_cpu_tone_structure :
    (∀ p : ℕ, p < 2 ^ 24 →
      preview_shader_pixel p neutral_params = cpu_tone_pixel p neutral_params) ∧
    (∀ (params : EditParams) (p : ℕ),
      preview_shader_pixel p params =
        pack_rgb
          (shader_to_u8 (tone_stage_hs (tone_stage_shift
            (tone_stage_ec ((p / 65536 % 256 : ℕ) / 255) (exposure_gain_of params.exposure)
              (1 + fclamp params.contrast (-5) 5 * (3/25)))
            (fclamp params.temperature (-5) 5 * (7/200)))
            (fclamp params.highlights (-5) 5 * (2/25)) (fclamp params.shadows (-5) 5 * (2/25))))
          (shader_to_u8 (tone_stage_hs (tone_stage_shift
            (tone_stage_ec ((p / 256 % 256 : ℕ) / 255) (exposure_gain_of params.exposure)
              (1 + fclamp params.contrast (-5) 5 * (3/25)))
            (fclamp params.tint (-5) 5 * (7/200)))
            (fclamp params.highlights (-5) 5 * (2/25)) (fclamp params.shadows (-5) 5 * (2/25))))
          (shader_to_u8 (tone_stage_hs (tone_stage_shift
            (tone_stage_ec ((p % 256 : ℕ) / 255) (exposure_gain_of params.exposure)
              (1 + fclamp params.contrast (-5) 5 * (3/25)))
            (-(fclamp params.temperature (-5) 5 * (7/200))))
            (fclamp params.highlights (-5) 5 * (2/25)) (fclamp params.shadows (-5) 5 * (2/25))))) ∧
    (∀ (c : ℕ) (gain factor : ℚ),
      apply_exposure_and_contrast_channel c gain factor =
        (round (tone_stage_ec ((c : ℚ) / 255) gain factor * 255)).toNat) ∧
    (∀ (c : ℕ) (hi sh : ℚ),
      apply_highlights_shadows_channel c hi sh =
        (round (tone_stage_hs ((c : ℚ) / 255) hi sh * 255)).toNat) ∧
    (∀ (pixel : ℕ) (temp tint_shift : ℚ),
      apply_temperature_tint_pixel pixel temp tint_shift =
        pack_rgb
          (round (tone_stage_shift (((unpack_rgb pixel).1 : ℚ) / 255) temp * 255)).toNat
          (round (tone_stage_shift (((unpack_rgb pixel).2.1 : ℚ) / 255) tint_shift * 255)).toNat
          (round (tone_stage_shift (((unpack_rgb pixel).2.2 : ℚ) / 255) (-temp) * 255)).toNat) := by
  refine ⟨?_, ?_, ?_, ?_, ?_⟩
  · intro p hp
    rw [preview_shader_pixel_neutral p hp, cpu_tone_pixel_neutral p hp]
  · intro params p
    exact preview_shader_pixel_eq_stages p params
  · intro c gain factor
    rfl
  · intro c hi sh
    rfl
  · intro pixel temp tint_shift
    simp only [apply_temperature_tint_pixel, tone_stage_shift, sub_eq_add_neg]

/-- Witness for C6 (amended) at a concrete pixel. -/
theorem gpu_cpu_tone_structure_witness :
    preview_shader_pixel 13158600 neutral_params = cpu_tone_pixel 13158600 neutral_params :=
  gpu_cpu_tone_structure.1 13158600 (by norm_num)

/-- Counterexample to C6 as stated: at contrast 1 (all other parameters 0)
and input channel 200, the exact value of the transformed channel is 208.7;
the CPU path rounds it to 209 but the kernel truncates it to 208, already in
exact (infinite-precision) arithmetic — a discrepancy the order of
evaluation shares with the f32 computation, not a floating-point rounding
artifact. -/
theorem gpu_cpu_tone_mismatch :
    preview_shader_pixel 13158600
      { exposure := 0, contrast := 1, temperature := 0, tint := 0
        highlights := 0, shadows := 0 } ≠
    cpu_tone_pixel 13158600
      { exposure := 0, contrast := 1, temperature := 0, tint := 0
        highlights := 0, shadows := 0 } := by
  have hgpu : preview_shader_pixel 13158600
      { exposure := 0, contrast := 1, temperature := 0, tint := 0
        highlights := 0, shadows := 0 } = 13684944 := by
    simp only [preview_shader_pixel, shader_to_u8, fclamp, exposure_gain_of]
    norm_num [Int.floor_eq_iff]
    decide
  have hch : apply_exposure_and_contrast_channel 200 1 (28/25) = 209 := by
    norm_num [apply_exposure_and_contrast_channel, fclamp, round_eq]
    decide
  have hpx : apply_exposure_contrast_pixel 13158600 1 (28/25) = 13750737 := by
    simp only [apply_exposure_contrast_pixel, unpack_rgb]
    norm_num [hch, pack_rgb]
  have hcpu : cpu_tone_pixel 13158600
      { exposure := 0, contrast := 1, temperature := 0, tint := 0
        highlights := 0, shadows := 0 } = 13750737 := by
    have hfac : (1 + fclamp 1 (-5) 5 * (3/25) : ℚ) = 28/25 := by norm_num [fclamp]
    obtain ⟨hg, -, ht, hh⟩ := neutral_strengths
    simp only [cpu_tone_pixel]
    rw [hg, hfac, ht, hh, hpx,
        tt_pixel_neutral 13750737 (by norm_num), hs_pixel_neutral 13750737 (by norm_num)]
  rw [hgpu, hcpu]
  norm_num

/-! ### The machine invariant -/

/-- A `try_receive_preview` call always leaves the channel empty. -/
theorem try_receive_result_queue_empty (queue : List PreviewFrame) (m : MetricsState) :
    (try_receive_preview queue true m).2.1 = [] := by
  cases queue <;> rfl

/-- A `try_receive_preview` call never touches the canceled counter. -/
theorem try_receive_canceled_unchanged (queue : List PreviewFrame) (m : MetricsState) :
    (try_receive_preview queue true m).2.2.canceled_jobs = m.canceled_jobs := by
  cases queue with
  | nil => rfl
  | cons first rest =>
    simp only [try_receive_preview]
    split <;> rfl

/-- The newest frame of the drain is a member of the channel snapshot. -/
theorem drain_newest_mem (first : PreviewFrame) (rest : List PreviewFrame) :
    (drain_newest first rest).1 ∈ first :: rest := by
  obtain ⟨h1, -⟩ := drain_newest_spec rest first
  obtain ⟨hne, heq⟩ := List.mem_getLast?_eq_getLast (Option.mem_def.mpr h1)
  rw [heq]
  exact List.getLast_mem hne

/-- A poll on an empty result channel does not change the state. -/
theorem poll_step_nil {s : PipelineState} (h : s.result_queue = []) : poll_step s = s := by
  cases s
  simp only at h
  subst h
  simp [poll_step, try_receive_preview]

/-- A poll on a non-empty result channel empties it, runs the facade
function on the metrics, and appends the newest frame to the history. -/
theorem poll_step_cons {s : PipelineState} {first : PreviewFrame} {rest : List PreviewFrame}
    (h : s.result_queue = first :: rest) :
    poll_step s =
      { s with result_queue := []
               metrics := (try_receive_preview (first :: rest) true s.metrics).2.2
               delivered := s.delivered ++ [(drain_newest first rest).1] } := by
  simp only [poll_step, h, try_receive_preview]

/-- The invariant holds initially. -/
theorem inv_init : Inv init_state := by
  refine ⟨?_, ?_, ?_, ?_, ?_⟩ <;>
    simp [state_seqs, init_state, hand_seqs, caller_pending]

/-- The invariant follows from a sequence-preserving (or -dropping) step. -/
theorem inv_sub {s s' : PipelineState} (h : Inv s)
    (hss : List.Sublist (state_seqs s') (state_seqs s))
    (hn : s'.next_sequence = s.next_sequence)
    (hl : s'.latest_sequence ≤ s'.next_sequence)
    (hc : caller_pending s'.caller = caller_pending s.caller) : Inv s' := by
  refine ⟨h.sorted.sublist hss, ?_, hl, ?_, ?_⟩
  · intro x hx
    rw [hn]
    exact h.bounded x (hss.subset hx)
  · intro seq hseq
    rw [hn]
    exact h.pending_eq seq (by rwa [hc] at hseq)
  · intro seq hseq x hx
    exact h.pending_gt seq (by rwa [hc] at hseq) x (hss.subset hx)

/-- Appending a strict upper bound preserves strict sortedness. -/
theorem pairwise_lt_append_singleton {l : List ℕ} {a : ℕ}
    (hl : List.Pairwise (· < ·) l) (ha : ∀ x ∈ l, x < a) :
    List.Pairwise (· < ·) (l ++ [a]) := by
  rw [List.pairwise_append]
  refine ⟨hl, List.pairwise_singleton _ _, ?_⟩
  intro x hx y hy
  rw [List.mem_singleton] at hy
  subst hy
  exact ha x hx

/-- Dropping the head of the right part of a concatenation is a sublist. -/
theorem sublist_append_cons (A : List ℕ) (x : ℕ) (B : List ℕ) :
    List.Sublist (A ++ B) (A ++ x :: B) :=
  (List.sublist_cons_self x B).append_left A

/-- The invariant is preserved by every step of the machine. -/
theorem inv_step {s s' : PipelineState} (h : Inv s) (hs : Step s s') : Inv s' := by
  cases hs with
  | submitAssign request hc =>
    refine ⟨h.sorted, ?_, ?_, ?_, ?_⟩
    · intro x hx
      exact (h.bounded x hx).trans (Nat.le_succ _)
    · exact h.latest_le.trans (Nat.le_succ _)
    · intro seq hseq
      simp only [caller_pending, Option.mem_def, Option.some.injEq] at hseq
      simp [hseq]
    · intro seq hseq x hx
      simp only [caller_pending, Option.mem_def, Option.some.injEq] at hseq
      subst hseq
      exact Nat.lt_succ_of_le (h.bounded x hx)
  | submitStoreLatest seq request hc =>
    have hpe := h.pending_eq seq (by simp [caller_pending, hc])
    refine inv_sub h (List.Sublist.refl _) rfl (le_of_eq hpe) ?_
    simp [caller_pending, hc]
  | submitCount seq request hc =>
    refine inv_sub h (List.Sublist.refl _) rfl h.latest_le ?_
    simp [caller_pending, hc]
  | submitSend seq request hc =>
    have hpe := h.pending_eq seq (by simp [caller_pending, hc])
    have hpg := h.pending_gt seq (by simp [caller_pending, hc])
    refine ⟨?_, ?_, h.latest_le, ?_, ?_⟩
    · simp only [state_seqs, List.map_append, List.map_cons, List.map_nil]
      rw [← List.append_assoc]
      exact pairwise_lt_append_singleton h.sorted hpg
    · intro x hx
      simp only [state_seqs, List.map_append, List.map_cons, List.map_nil,
        ← List.append_assoc] at hx
      rcases List.mem_append.mp hx with hx | hx
      · exact h.bounded x hx
      · rw [List.mem_singleton] at hx
        subst hx
        exact le_of_eq hpe
    · intro seq' hseq'
      simp [caller_pending] at hseq'
    · intro seq' hseq'
      simp [caller_pending] at hseq'
  | poll hc =>
    cases hq : s.result_queue with
    | nil =>
      rw [poll_step_nil hq]
      exact h
    | cons first rest =>
      rw [poll_step_cons hq]
      refine inv_sub h ?_ rfl h.latest_le rfl
      simp only [state_seqs, hq, List.map_append, List.map_cons, List.map_nil,
        List.append_nil]
      have hmem : ((drain_newest first rest).1).sequence ∈
          (first :: rest).map PreviewFrame.sequence :=
        List.mem_map_of_mem _ (drain_newest_mem first rest)
      have hsub : List.Sublist
          (s.delivered.map PreviewFrame.sequence ++ [((drain_newest first rest).1).sequence])
          (s.delivered.map PreviewFrame.sequence ++ (first :: rest).map PreviewFrame.sequence) :=
        (List.singleton_sublist.mpr hmem).append_left _
      exact (hsub.append_right _).append_right _
  | workerRecv job rest hw hq =>
    refine inv_sub h ?_ rfl h.latest_le rfl
    have he : state_seqs { s with worker := WorkerPhase.coalescing job, submit_queue := rest } =
        state_seqs s := by
      simp [state_seqs, hand_seqs, hw, hq, List.append_assoc]
    rw [he]
  | workerCoalesce job next rest hw hq =>
    refine inv_sub h ?_ rfl h.latest_le rfl
    simp only [state_seqs, hand_seqs, hw, hq, List.map_cons, List.append_assoc,
      List.singleton_append]
    exact ((List.sublist_cons_self _ _).append_left _).append_left _
  | workerCoalesceDone job hw hq =>
    refine inv_sub h ?_ rfl h.latest_le rfl
    have he : state_seqs { s with worker := WorkerPhase.checking job } = state_seqs s := by
      simp [state_seqs, hand_seqs, hw]
    rw [he]
  | workerCheckStale job hw hlt =>
    refine inv_sub h ?_ rfl h.latest_le rfl
    simp only [state_seqs, hand_seqs, hw, List.append_assoc, List.singleton_append,
      List.nil_append, List.append_nil]
    exact ((List.sublist_cons_self _ _).append_left _).append_left _
  | workerCheckFresh job hw hge =>
    refine inv_sub h ?_ rfl h.latest_le rfl
    have he : state_seqs { s with worker := WorkerPhase.rendering job } = state_seqs s := by
      simp [state_seqs, hand_seqs, hw]
    rw [he]
  | workerRenderOk job r elapsed hw =>
    refine inv_sub h ?_ rfl h.latest_le rfl
    have he : state_seqs { s with worker := WorkerPhase.rendered job r elapsed } =
        state_seqs s := by
      simp [state_seqs, hand_seqs, hw]
    rw [he]
  | workerRenderErr job hw =>
    refine inv_sub h ?_ rfl h.latest_le rfl
    simp only [state_seqs, hand_seqs, hw, List.append_assoc, List.singleton_append,
      List.nil_append, List.append_nil]
    exact ((List.sublist_cons_self _ _).append_left _).append_left _
  | workerPostStale job r elapsed hw hlt =>
    refine inv_sub h ?_ rfl h.latest_le rfl
    simp only [state_seqs, hand_seqs, hw, List.append_assoc, List.singleton_append,
      List.nil_append, List.append_nil]
    exact ((List.sublist_cons_self _ _).append_left _).append_left _
  | workerPublish job r elapsed hw hge =>
    refine inv_sub h ?_ rfl h.latest_le rfl
    have he : state_seqs
        { s with worker := WorkerPhase.waiting
                 result_queue := s.result_queue ++ [frame_of job r elapsed]
                 metrics := MetricsState.push_render_sample
                   { s.metrics with completed_jobs := s.metrics.completed_jobs + 1 }
                   elapsed } = state_seqs s := by
      simp [state_seqs, hand_seqs, hw, frame_of, List.map_append, List.append_assoc]
    rw [he]

/-- Every reachable pipeline state satisfies the invariant. -/
theorem reachable_inv {s : PipelineState} (h : Reachable s) : Inv s := by
  induction h with
  | init => exact inv_init
  | step _ hstep ih => exact inv_step ih hstep

/-- During coalescing, the displaced candidate is strictly older than the
job that displaces it. -/
theorem hand_lt_queue_head {s : PipelineState} (h : Inv s) {job next : ScheduledJob}
    {rest : List ScheduledJob} (hw : s.worker = .coalescing job)
    (hq : s.submit_queue = next :: rest) : job.sequence < next.sequence := by
  have hp := h.sorted
  simp only [state_seqs, hand_seqs, hw, hq, List.map_cons] at hp
  obtain ⟨-, -, hrel⟩ := List.pairwise_append.mp hp
  exact hrel job.sequence (by simp) next.sequence (by simp)

/-- `push_render_sample` never touches the canceled counter. -/
theorem push_render_sample_canceled (m : MetricsState) (e : ℕ) :
    (MetricsState.push_render_sample m e).canceled_jobs = m.canceled_jobs := rfl

/-- C2 (amended): every step changes the canceled counter by at most one;
an increment happens only when the worker's job is known superseded (its
sequence is below the latest-known sequence, or a strictly newer job sits in
the submit channel) — the three supersession check points — or when a render
fails; and a render failure always increments it. -/
theorem canceled_increment_characterization :
    ∀ s s' : PipelineState, Reachable s → Step s s' →
      (s'.metrics.canceled_jobs = s.metrics.canceled_jobs ∨
       s'.metrics.canceled_jobs = s.metrics.canceled_jobs + 1) ∧
      (s'.metrics.canceled_jobs = s.metrics.canceled_jobs + 1 →
        (∃ job, hand_job s.worker = some job ∧
          (job.sequence < s.latest_sequence ∨
           ∃ newer ∈ s.submit_queue, job.sequence < newer.sequence)) ∨
        (∃ job, s.worker = .rendering job ∧ s'.worker = .waiting)) ∧
      ((∃ job, s.worker = .rendering job ∧ s'.worker = .waiting) →
        s'.metrics.canceled_jobs = s.metrics.canceled_jobs + 1) := by
  intro s s' hr hstep
  have hinv := reachable_inv hr
  cases hstep with
  | submitAssign request hc =>
    refine ⟨Or.inl rfl, ?_, ?_⟩
    · intro habs
      have h2 : s.metrics.canceled_jobs = s.metrics.canceled_jobs + 1 := habs
      omega
    · rintro ⟨j, hwj, hwj'⟩
      have h2 : s.worker = WorkerPhase.waiting := hwj'
      rw [hwj] at h2
      exact WorkerPhase.noConfusion h2
  | submitStoreLatest seq request hc =>
    refine ⟨Or.inl rfl, ?_, ?_⟩
    · intro habs
      have h2 : s.metrics.canceled_jobs = s.metrics.canceled_jobs + 1 := habs
      omega
    · rintro ⟨j, hwj, hwj'⟩
      have h2 : s.worker = WorkerPhase.waiting := hwj'
      rw [hwj] at h2
      exact WorkerPhase.noConfusion h2
  | submitCount seq request hc =>
    refine ⟨Or.inl rfl, ?_, ?_⟩
    · intro habs
      have h2 : s.metrics.canceled_jobs = s.metrics.canceled_jobs + 1 := habs
      omega
    · rintro ⟨j, hwj, hwj'⟩
      have h2 : s.worker = WorkerPhase.waiting := hwj'
      rw [hwj] at h2
      exact WorkerPhase.noConfusion h2
  | submitSend seq request hc =>
    refine ⟨Or.inl rfl, ?_, ?_⟩
    · intro habs
      have h2 : s.metrics.canceled_jobs = s.metrics.canceled_jobs + 1 := habs
      omega
    · rintro ⟨j, hwj, hwj'⟩
      have h2 : s.worker = WorkerPhase.waiting := hwj'
      rw [hwj] at h2
      exact WorkerPhase.noConfusion h2
  | poll hc =>
    refine ⟨Or.inl (try_receive_canceled_unchanged s.result_queue s.metrics), ?_, ?_⟩
    · intro habs
      have h2 := try_receive_canceled_unchanged s.result_queue s.metrics
      have h3 : (try_receive_preview s.result_queue true s.metrics).2.2.canceled_jobs =
          s.metrics.canceled_jobs + 1 := habs
      omega
    · rintro ⟨j, hwj, hwj'⟩
      have h2 : s.worker = WorkerPhase.waiting := hwj'
      rw [hwj] at h2
      exact WorkerPhase.noConfusion h2
  | workerRecv job rest hw hq =>
    refine ⟨Or.inl rfl, ?_, ?_⟩
    · intro habs
      have h2 : s.metrics.canceled_jobs = s.metrics.canceled_jobs + 1 := habs
      omega
    · rintro ⟨j, hwj, hwj'⟩
      rw [hw] at hwj
      exact WorkerPhase.noConfusion hwj
  | workerCoalesce job next rest hw hq =>
    refine ⟨Or.inr rfl, ?_, ?_⟩
    · intro _
      left
      refine ⟨job, ?_, Or.inr ⟨next, ?_, hand_lt_queue_head hinv hw hq⟩⟩
      · rw [hw]; rfl
      · rw [hq]; exact List.mem_cons_self _ _
    · rintro ⟨j, hwj, hwj'⟩
      rw [hw] at hwj
      exact WorkerPhase.noConfusion hwj
  | workerCoalesceDone job hw hq =>
    refine ⟨Or.inl rfl, ?_, ?_⟩
    · intro habs
      have h2 : s.metrics.canceled_jobs = s.metrics.canceled_jobs + 1 := habs
      omega
    · rintro ⟨j, hwj, hwj'⟩
      rw [hw] at hwj
      exact WorkerPhase.noConfusion hwj
  | workerCheckStale job hw hlt =>
    refine ⟨Or.inr rfl, ?_, ?_⟩
    · intro _
      left
      exact ⟨job, by rw [hw]; rfl, Or.inl hlt⟩
    · rintro ⟨j, hwj, hwj'⟩
      rw [hw] at hwj
      exact WorkerPhase.noConfusion hwj
  | workerCheckFresh job hw hge =>
    refine ⟨Or.inl rfl, ?_, ?_⟩
    · intro habs
      have h2 : s.metrics.canceled_jobs = s.metrics.canceled_jobs + 1 := habs
      omega
    · rintro ⟨j, hwj, hwj'⟩
      rw [hw] at hwj
      exact WorkerPhase.noConfusion hwj
  | workerRenderOk job r elapsed hw =>
    refine ⟨Or.inl rfl, ?_, ?_⟩
    · intro habs
      have h2 : s.metrics.canceled_jobs = s.metrics.canceled_jobs + 1 := habs
      omega
    · rintro ⟨j, hwj, hwj'⟩
      have h2 : WorkerPhase.rendered job r elapsed = WorkerPhase.waiting := hwj'
      exact WorkerPhase.noConfusion h2
  | workerRenderErr job hw =>
    refine ⟨Or.inr rfl, ?_, ?_⟩
    · intro _
      right
      exact ⟨job, hw, rfl⟩
    · intro _
      rfl
  | workerPostStale job r elapsed hw hlt =>
    refine ⟨Or.inr rfl, ?_, ?_⟩
    · intro _
      left
      exact ⟨job, by rw [hw]; rfl, Or.inl hlt⟩
    · rintro ⟨j, hwj, hwj'⟩
      rw [hw] at hwj
      exact WorkerPhase.noConfusion hwj
  | workerPublish job r elapsed hw hge =>
    refine ⟨Or.inl rfl, ?_, ?_⟩
    · intro habs
      have h2 : s.metrics.canceled_jobs = s.metrics.canceled_jobs + 1 := habs
      omega
    · rintro ⟨j, hwj, hwj'⟩
      rw [hw] at hwj
      exact WorkerPhase.noConfusion hwj

/-- The render-failure state of the one-submission run is reachable. -/
theorem reachable_ex7 : Reachable ex_state7 := by
  have h1 : Step init_state ex_state1 := Step.submitAssign init_state ex_request rfl
  have h2 : Step ex_state1 ex_state2 := Step.submitStoreLatest ex_state1 1 ex_request rfl
  have h3 : Step ex_state2 ex_state3 := Step.submitCount ex_state2 1 ex_request rfl
  have h4 : Step ex_state3 ex_state4 := Step.submitSend ex_state3 1 ex_request rfl
  have h5 : Step ex_state4 ex_state5 := Step.workerRecv ex_state4 ex_job [] rfl rfl
  have h6 : Step ex_state5 ex_state6 := Step.workerCoalesceDone ex_state5 ex_job rfl rfl
  have h7 : Step ex_state6 ex_state7 := Step.workerCheckFresh ex_state6 ex_job rfl (by decide)
  exact Reachable.step
    (Reachable.step
      (Reachable.step
        (Reachable.step
          (Reachable.step
            (Reachable.step (Reachable.step Reachable.init h1) h2) h3) h4) h5) h6) h7

/-- Counterexample to C2 as stated: a reachable execution in which the only
job ever submitted (its sequence equals both the sequence counter and the
latest-known sequence, and the submit channel is empty — so no strictly
newer submission exists anywhere) fails to render, and the canceled counter
is incremented anyway. -/
theorem canceled_without_newer_submission :
    Reachable ex_state7 ∧
    Step ex_state7 ex_state8 ∧
    ex_state8.metrics.canceled_jobs = ex_state7.metrics.canceled_jobs + 1 ∧
    hand_job ex_state7.worker = some ex_job ∧
    ex_job.sequence = ex_state7.next_sequence ∧
    ex_state7.latest_sequence = ex_job.sequence ∧
    ex_state7.submit_queue = [] :=
  ⟨reachable_ex7, Step.workerRenderErr ex_state7 ex_job rfl, rfl, rfl, rfl, rfl, rfl⟩

/-- Witness for C2 (amended) at the concrete render-failure step. -/
theorem canceled_increment_characterization_witness :
    (ex_state8.metrics.canceled_jobs = ex_state7.metrics.canceled_jobs ∨
     ex_state8.metrics.canceled_jobs = ex_state7.metrics.canceled_jobs + 1) ∧
    (ex_state8.metrics.canceled_jobs = ex_state7.metrics.canceled_jobs + 1 →
      (∃ job, hand_job ex_state7.worker = some job ∧
        (job.sequence < ex_state7.latest_sequence ∨
         ∃ newer ∈ ex_state7.submit_queue, job.sequence < newer.sequence)) ∨
      (∃ job, ex_state7.worker = .rendering job ∧ ex_state8.worker = .waiting)) ∧
    ((∃ job, ex_state7.worker = .rendering job ∧ ex_state8.worker = .waiting) →
      ex_state8.metrics.canceled_jobs = ex_state7.metrics.canceled_jobs + 1) :=
  canceled_increment_characterization ex_state7 ex_state8 reachable_ex7
    (Step.workerRenderErr ex_state7 ex_job rfl)

/-- C3: in every execution, the sequence numbers of the frames returned by
successive non-`None` polls are non-decreasing (in fact strictly
increasing); and when the worker holds a finished frame that is stale at the
post-render check, the step publishes nothing: no frame enters the result
channel and the delivery history can only receive frames already in the
channel. -/
theorem delivered_sequence_monotone :
    ∀ s s' : PipelineState, Reachable s → Step s s' →
      List.Chain' (· ≤ ·) (s'.delivered.map PreviewFrame.sequence) ∧
      (∀ (job : ScheduledJob) (r : RenderedPreview) (elapsed : ℕ),
        s.worker = .rendered job r elapsed → job.sequence < s.latest_sequence →
        (∀ f ∈ s'.result_queue, f ∈ s.result_queue) ∧
        (∀ f ∈ s'.delivered, f ∈ s.delivered ∨ f ∈ s.result_queue)) := by
  intro s s' hr hstep
  constructor
  · have hinv' : Inv s' := inv_step (reachable_inv hr) hstep
    have h1 : List.Sublist (s'.delivered.map PreviewFrame.sequence) (state_seqs s') := by
      simp only [state_seqs]
      exact ((List.sublist_append_left _ _).trans (List.sublist_append_left _ _)).trans
        (List.sublist_append_left _ _)
    have hpw := hinv'.sorted.sublist h1
    exact List.chain'_iff_pairwise.mpr (hpw.imp (fun hab => le_of_lt hab))
  · intro job r elapsed hw hlt
    cases hstep with
    | submitAssign request hc => exact ⟨fun f hf => hf, fun f hf => Or.inl hf⟩
    | submitStoreLatest seq request hc => exact ⟨fun f hf => hf, fun f hf => Or.inl hf⟩
    | submitCount seq request hc => exact ⟨fun f hf => hf, fun f hf => Or.inl hf⟩
    | submitSend seq request hc => exact ⟨fun f hf => hf, fun f hf => Or.inl hf⟩
    | poll hc =>
      constructor
      · intro f hf
        have h2 : f ∈ (try_receive_preview s.result_queue true s.metrics).2.1 := hf
        rw [try_receive_result_queue_empty] at h2
        exact absurd h2 (List.not_mem_nil f)
      · intro f hf
        cases hq : s.result_queue with
        | nil =>
          rw [poll_step_nil hq] at hf
          exact Or.inl hf
        | cons first rest =>
          rw [poll_step_cons hq] at hf
          rcases List.mem_append.mp hf with hf | hf
          · exact Or.inl hf
          · rw [List.mem_singleton] at hf
            subst hf
            right
            exact drain_newest_mem first rest
    | workerRecv job2 rest hw2 hq2 =>
      rw [hw] at hw2
      exact WorkerPhase.noConfusion hw2
    | workerCoalesce job2 next rest hw2 hq2 =>
      rw [hw] at hw2
      exact WorkerPhase.noConfusion hw2
    | workerCoalesceDone job2 hw2 hq2 =>
      rw [hw] at hw2
      exact WorkerPhase.noConfusion hw2
    | workerCheckStale job2 hw2 hlt2 =>
      rw [hw] at hw2
      exact WorkerPhase.noConfusion hw2
    | workerCheckFresh job2 hw2 hge2 =>
      rw [hw] at hw2
      exact WorkerPhase.noConfusion hw2
    | workerRenderOk job2 r2 e2 hw2 =>
      rw [hw] at hw2
      exact WorkerPhase.noConfusion hw2
    | workerRenderErr job2 hw2 =>
      rw [hw] at hw2
      exact WorkerPhase.noConfusion hw2
    | workerPostStale job2 r2 e2 hw2 hlt2 =>
      exact ⟨fun f hf => hf, fun f hf => Or.inl hf⟩
    | workerPublish job2 r2 e2 hw2 hge2 =>
      rw [hw] at hw2
      injection hw2 with hj hr2 he2
      subst hj
      exact absurd hlt hge2

/-- Witness for C3 at the first step of an execution. -/
theorem delivered_sequence_monotone_witness :
    List.Chain' (· ≤ ·) (ex_state1.delivered.map PreviewFrame.sequence) ∧
    (∀ (job : ScheduledJob) (r : RenderedPreview) (elapsed : ℕ),
      init_state.worker = .rendered job r elapsed →
      job.sequence < init_state.latest_sequence →
      (∀ f ∈ ex_state1.result_queue, f ∈ init_state.result_queue) ∧
      (∀ f ∈ ex_state1.delivered, f ∈ init_state.delivered ∨ f ∈ init_state.result_queue)) :=
  delivered_sequence_monotone init_state ex_state1 Reachable.init
    (Step.submitAssign init_state ex_request rfl)

end LiteRoom
